import Mathlib

/-!
Verification development for the Aegis vulnerability-fix mediation service
(`src/aegis/app.py`). The Python request handler and its helpers are shallowly
embedded as pure Lean functions: JSON values are an inductive type, the
standard-library calls `json.loads` / `json.dumps` are modelled by executable
Lean functions faithful to CPython behaviour on the fragment this service
exchanges (integer numerals; `ensure_ascii` serialization), and the handler's
external effects (database lookup, LLM call, database insert) are recorded in
an explicit effect trace while their outcomes are supplied by an environment.
-/

set_option autoImplicit false

namespace Aegis

/-- JSON values as produced by `json.loads`. Numeric literals are modelled as
integers: the service never constructs, inspects or transforms a JSON number,
so fraction/exponent forms are outside the modelled fragment (the parser
rejects them rather than approximating floats). Objects are key/value lists in
insertion order, mirroring CPython `dict`. -/
inductive Json where
  | null : Json
  | bool (b : Bool) : Json
  | num (n : Int) : Json
  | str (s : String) : Json
  | arr (xs : List Json) : Json
  | obj (kvs : List (String × Json)) : Json
deriving Repr

/-- `kvs[k]` on a Python dict represented as an ordered key/value list:
the value at the first (hence, with CPython-dict construction, only)
occurrence of the key. -/
def lookupKV : List (String × Json) → String → Option Json
  | [], _ => none
  | (k', v) :: rest, k => if k' = k then some v else lookupKV rest k

/-- `k in kvs` for a Python dict. -/
def hasKey (kvs : List (String × Json)) (k : String) : Bool :=
  (lookupKV kvs k).isSome

/-- `kvs[k] = v` on a Python dict: updates the value in place when the key is
present (CPython keeps the original insertion position) and appends otherwise. -/
def setKey : List (String × Json) → String → Json → List (String × Json)
  | [], k, v => [(k, v)]
  | (k', v') :: rest, k, v =>
      if k' = k then (k, v) :: rest else (k', v') :: setKey rest k v

/-- Characters stripped by Python `str.strip()` (the ASCII whitespace set;
arguments of this service are ASCII). -/
def isPyWs (c : Char) : Bool :=
  c = ' ' || c = '\t' || c = '\n' || c = '\x0d' || c = '\x0b' || c = '\x0c'

/-- Python `str.strip()`: removes leading and trailing whitespace. -/
def pyStrip (s : String) : String :=
  ⟨((s.data.dropWhile isPyWs).reverse.dropWhile isPyWs).reverse⟩

/-- Hexadecimal digit test (for `\uXXXX` escapes). -/
def isHexCh (c : Char) : Bool :=
  c.isDigit || ('a' ≤ c && c ≤ 'f') || ('A' ≤ c && c ≤ 'F')

/-- JSON insignificant whitespace, as skipped by `json.loads`. -/
def isJsonWs (c : Char) : Bool :=
  c = ' ' || c = '\t' || c = '\n' || c = '\x0d'

def skipWs (s : List Char) : List Char :=
  s.dropWhile isJsonWs

/-- Decimal digits of a JSON int literal, most significant first. -/
def digitsToNat (acc : Nat) : List Char → Nat
  | [] => acc
  | c :: rest => digitsToNat (acc * 10 + (c.toNat - '0'.toNat)) rest

/-- Parse the body of a JSON string literal (after the opening quote), up to
and including the closing quote. Handles the short escapes and `\uXXXX` for
code points this service exchanges; `json.loads`'s rejection of raw control
characters is not modelled (no input of interest contains them). -/
def parseStringBody : List Char → List Char → Option (String × List Char)
  | [], _ => none
  | '"' :: rest, acc => some (⟨acc.reverse⟩, rest)
  | '\\' :: e :: rest, acc =>
      match e with
      | '"' => parseStringBody rest ('"' :: acc)
      | '\\' => parseStringBody rest ('\\' :: acc)
      | '/' => parseStringBody rest ('/' :: acc)
      | 'b' => parseStringBody rest ('\x08' :: acc)
      | 'f' => parseStringBody rest ('\x0c' :: acc)
      | 'n' => parseStringBody rest ('\n' :: acc)
      | 'r' => parseStringBody rest ('\x0d' :: acc)
      | 't' => parseStringBody rest ('\t' :: acc)
      | 'u' =>
          match rest with
          | h1 :: h2 :: h3 :: h4 :: rest' =>
              if isHexCh h1 && isHexCh h2 && isHexCh h3 && isHexCh h4 then
                let hexVal := fun (c : Char) =>
                  if c.isDigit then c.toNat - '0'.toNat
                  else if 'a' ≤ c && c ≤ 'f' then c.toNat - 'a'.toNat + 10
                  else c.toNat - 'A'.toNat + 10
                let n := ((hexVal h1 * 16 + hexVal h2) * 16 + hexVal h3) * 16 + hexVal h4
                if n.isValidChar then
                  parseStringBody rest' (Char.ofNat n :: acc)
                else none
              else none
          | _ => none
      | _ => none
  | c :: rest, acc => if c = '"' ∨ c = '\\' then none else parseStringBody rest (c :: acc)

/-- Parse a JSON integer literal (optional minus, one or more digits). The
input fragment excludes fraction/exponent forms, so a following `.`, `e` or
`E` makes the parse fail. -/
def parseNumber (s : List Char) : Option (Json × List Char) :=
  let (neg, s') := match s with
    | '-' :: rest => (true, rest)
    | _ => (false, s)
  let digits := s'.takeWhile Char.isDigit
  let rest := s'.dropWhile Char.isDigit
  if digits.isEmpty then none
  else match rest with
    | '.' :: _ => none
    | 'e' :: _ => none
    | 'E' :: _ => none
    | _ =>
        let n : Int := Int.ofNat (digitsToNat 0 digits)
        some (Json.num (if neg then -n else n), rest)

mutual

/-- Parse one JSON value, fuel-indexed (fuel bounds nesting depth; the
top-level caller supplies more fuel than the input length, which suffices
because each nested value is preceded by at least one consumed character). -/
def parseValue : Nat → List Char → Option (Json × List Char)
  | 0, _ => none
  | Nat.succ fuel, s =>
      match skipWs s with
      | [] => none
      | '{' :: rest =>
          match skipWs rest with
          | '}' :: rest' => some (Json.obj [], rest')
          | _ => parseMembers fuel rest []
      | '[' :: rest =>
          match skipWs rest with
          | ']' :: rest' => some (Json.arr [], rest')
          | _ => parseElements fuel rest []
      | '"' :: rest =>
          match parseStringBody rest [] with
          | some (str, rest') => some (Json.str str, rest')
          | none => none
      | 't' :: 'r' :: 'u' :: 'e' :: rest => some (Json.bool true, rest)
      | 'f' :: 'a' :: 'l' :: 's' :: 'e' :: rest => some (Json.bool false, rest)
      | 'n' :: 'u' :: 'l' :: 'l' :: rest => some (Json.null, rest)
      | s' => parseNumber s'

/-- Parse the members of a JSON object after `{` (non-empty member list).
Duplicate keys follow CPython `dict` semantics: the later value wins, at the
earlier insertion position. -/
def parseMembers : Nat → List Char → List (String × Json) → Option (Json × List Char)
  | 0, _, _ => none
  | Nat.succ fuel, s, acc =>
      match skipWs s with
      | '"' :: rest =>
          match parseStringBody rest [] with
          | some (key, rest') =>
              match skipWs rest' with
              | ':' :: rest'' =>
                  match parseValue fuel rest'' with
                  | some (v, rest''') =>
                      let acc' := setKey acc key v
                      match skipWs rest''' with
                      | ',' :: rest4 => parseMembers fuel rest4 acc'
                      | '}' :: rest4 => some (Json.obj acc', rest4)
                      | _ => none
                  | none => none
              | _ => none
          | none => none
      | _ => none

/-- Parse the elements of a JSON array after `[` (non-empty element list). -/
def parseElements : Nat → List Char → List Json → Option (Json × List Char)
  | 0, _, _ => none
  | Nat.succ fuel, s, acc =>
      match parseValue fuel s with
      | some (v, rest) =>
          match skipWs rest with
          | ',' :: rest' => parseElements fuel rest' (v :: acc)
          | ']' :: rest' => some (Json.arr (v :: acc).reverse, rest')
          | _ => none
      | none => none

end

/-- Model of Python `json.loads`: parse one JSON document and require only
whitespace to follow. Returns `none` exactly when `json.loads` raises
`JSONDecodeError` (on the modelled fragment). -/
def json_loads (s : String) : Option Json :=
  match parseValue (s.length + 1) s.data with
  | some (v, rest) => if (skipWs rest).isEmpty then some v else none
  | none => none

/-- Serialization of one character inside a JSON string literal, per
`json.dumps` defaults (`ensure_ascii=True`): printable ASCII verbatim, the
short escapes for the usual control characters, `\uXXXX` otherwise
(code points of this service are in the BMP). -/
def dumpChar (c : Char) : String :=
  if c = '"' then "\\\""
  else if c = '\\' then "\\\\"
  else if c = '\n' then "\\n"
  else if c = '\t' then "\\t"
  else if c = '\x0d' then "\\r"
  else if c = '\x08' then "\\b"
  else if c = '\x0c' then "\\f"
  else if ' ' ≤ c ∧ c ≤ '\x7e' then String.singleton c
  else
    let hexDigit := fun (n : Nat) =>
      if n < 10 then Char.ofNat ('0'.toNat + n) else Char.ofNat ('a'.toNat + n - 10)
    let n := c.toNat
    "\\u" ++ ⟨[hexDigit (n / 4096 % 16), hexDigit (n / 256 % 16),
               hexDigit (n / 16 % 16), hexDigit (n % 16)]⟩

/-- `json.dumps` of a string value. -/
def dumpString (s : String) : String :=
  "\"" ++ String.join (s.data.map dumpChar) ++ "\""

mutual

/-- Model of Python `json.dumps` with default arguments: item separator
`", "`, key separator `": "`, insertion-order keys, `ensure_ascii` string
escaping. -/
def json_dumps : Json → String
  | Json.null => "null"
  | Json.bool true => "true"
  | Json.bool false => "false"
  | Json.num n => toString n
  | Json.str s => dumpString s
  | Json.arr xs => "[" ++ dumpList xs ++ "]"
  | Json.obj kvs => "\x7b" ++ dumpMembers kvs ++ "\x7d"

def dumpList : List Json → String
  | [] => ""
  | [x] => json_dumps x
  | x :: rest => json_dumps x ++ ", " ++ dumpList rest

def dumpMembers : List (String × Json) → String
  | [] => ""
  | [(k, v)] => dumpString k ++ ": " ++ json_dumps v
  | (k, v) :: rest => dumpString k ++ ": " ++ json_dumps v ++ ", " ++ dumpMembers rest

end

/-- `REQUIRED_KEYS` from `app.py`. The source holds them in a Python `set`
whose iteration order is implementation-defined; the model fixes the literal
order of the source text, which only pins down the order of names inside the
"Missing required fields" message and which failing field is reported first. -/
def REQUIRED_KEYS : List String :=
  ["vulnerability_id", "description", "code_snippet", "language"]

/-- `validate_input` from `app.py`: checks the body is an object holding all
four required keys, each a non-blank string; returns the Python pair
`(ok, err)`. -/
def validate_input (data : Json) : Bool × Option String :=
  match data with
  | Json.obj kvs =>
      let missing := REQUIRED_KEYS.filter (fun k => ¬ hasKey kvs k)
      if missing ≠ [] then
        (false, some ("Missing required fields: " ++ String.intercalate ", " missing))
      else
        match REQUIRED_KEYS.find? (fun k =>
            match lookupKV kvs k with
            | some (Json.str s) => pyStrip s = ""
            | _ => true) with
        | some k => (false, some ("Field \x27" ++ k ++ "\x27 must be a non-empty string"))
        | none => (true, none)
  | _ => (false, some "JSON body must be an object")

/-- `SYSTEM_PROMPT` from `app.py`, verbatim (a Python triple-quoted string
beginning and ending with a newline). -/
def SYSTEM_PROMPT : String :=
  "\nYou are an expert security engineer. Given a vulnerability described in JSON,\nproduce a valid JSON response containing exactly these keys:\n- \"vulnerability_id\": same ID from input\n- \"fixed_code\": a code snippet that fixes the issue (in the same language)\n- \"fix_description\": a short plain-text sentence describing the change\n\nIf the vulnerability cannot be safely fixed or involves disallowed content, respond with:\n\x7b\"vulnerability_id\": \"<same id>\", \"fixed_code\": \"\", \"fix_description\": \"REFUSED: unsafe or disallowed content\"\x7d\n\nDo not output any text outside the JSON object.\n"

/-- A chat message as passed to the LLM client. -/
structure Message where
  role : String
  content : String
deriving Repr, DecidableEq

/-- `build_messages` from `app.py`. -/
def build_messages (input_json : Json) : List Message :=
  let user_content :=
    "Here is the vulnerability JSON:\n" ++ json_dumps input_json ++ "\nReturn only the required JSON."
  [⟨"system", SYSTEM_PROMPT⟩, ⟨"user", user_content⟩]

/-- `call_llm` from `app.py`: the provider interaction itself is external, so
its outcome (reply text, or the message of the exception the client raised) is
an argument; the function returns the Python pair `(success, text)` exactly as
the source's try/except does. -/
def call_llm (outcome : Except String String) : Bool × String :=
  match outcome with
  | Except.ok text => (true, text)
  | Except.error e => (false, e)

/-- `expected_keys` from the handler: the keys required of the LLM reply. -/
def expected_keys : List String :=
  ["vulnerability_id", "fixed_code", "fix_description"]

/-- Does `hay` begin with `needle`? (Helper for Python substring test.) -/
def charsStartWith : List Char → List Char → Bool
  | _, [] => true
  | [], _ :: _ => false
  | h :: hs, n :: ns => h = n && charsStartWith hs ns

/-- Does `hay` contain `needle` as a contiguous run? -/
def charsContain : List Char → List Char → Bool
  | [], needle => needle.isEmpty
  | c :: rest, needle => charsStartWith (c :: rest) needle || charsContain rest needle

/-- Python `needle in hay` on strings. -/
def strContains (hay needle : String) : Bool :=
  charsContain hay.data needle.data

/-- The Python type name of a parsed JSON value, as it appears in the
`AttributeError` raised by `parsed.keys()` when `parsed` is not a dict. -/
def pyTypeName : Json → String
  | Json.null => "NoneType"
  | Json.bool _ => "bool"
  | Json.num _ => "int"
  | Json.str _ => "str"
  | Json.arr _ => "list"
  | Json.obj _ => "dict"

/-- The supabase `.eq("vulnerability_id", id)` filter: keeps the rows whose
`vulnerability_id` column equals the given text. -/
def rowMatches (id : String) (row : List (String × Json)) : Bool :=
  match lookupKV row "vulnerability_id" with
  | some (Json.str s) => s = id
  | _ => false

/-- The PostgREST column selection applied to a stored row: the returned
record holds the named columns in select-list order. -/
def selectCols (cols : List String) (row : List (String × Json)) : List (String × Json) :=
  cols.filterMap (fun c => (lookupKV row c).map (fun v => (c, v)))

/-- The select list of the handler's existence check. -/
def LOOKUP_COLUMNS : List String :=
  ["vulnerability_id", "fix_description", "fixed_code"]

/-- `data[k]` for a key the control flow has already established to be
present (after `validate_input`, resp. the `expected_keys` subset check);
the `null` default of the model is never reached on those paths. -/
def getJ (kvs : List (String × Json)) (k : String) : Json :=
  (lookupKV kvs k).getD Json.null

/-- `data[k]` for a key `validate_input` has established to be a string. -/
def getStr (kvs : List (String × Json)) (k : String) : String :=
  match lookupKV kvs k with
  | some (Json.str s) => s
  | _ => ""

/-- Field access on a JSON object value (`none` on non-objects). -/
def jsonField (j : Json) (k : String) : Option Json :=
  match j with
  | Json.obj kvs => lookupKV kvs k
  | _ => none

/-- The key list of a JSON object value, in order. -/
def objKeys : Json → List String
  | Json.obj kvs => kvs.map Prod.fst
  | _ => []

/-- The per-request environment: the parsed request body (`Except.error` when
`request.get_json(force=True)` raises), the rows of the `vulnerabilities`
table, and the outcomes of the three external interactions (a `some`
lookup/insert error is the exception the client raises; `llmOutcome` is the
reply text or the raised exception's message). -/
structure Env where
  body : Except Unit Json
  store : List (List (String × Json))
  lookupError : Option String
  llmOutcome : Except String String
  insertError : Option String

/-- An external interaction performed by the handler, in program order. -/
inductive Effect where
  | dbLookup (id : String) : Effect
  | llmCall (messages : List Message) : Effect
  | dbInsert (record : List (String × Json)) : Effect
deriving Repr

/-- An HTTP response produced by `jsonify(body), status`. -/
structure Response where
  status : Nat
  body : Json
deriving Repr

/-- `analyze_vulnerability` from `app.py` as a pure function of the request
environment: the Flask outcome (`Except.error` is an exception escaping the
handler — rendered by Flask as a generic 500 page, distinct from every
`jsonify` response the handler itself builds) paired with the trace of
store/LLM interactions in program order. The `kvs := ... | _ => []` default
is unreachable: `validate_input` returns `true` only for objects. -/
def analyze_vulnerability (env : Env) : Except String Response × List Effect :=
  match env.body with
  | Except.error _ =>
      (Except.ok ⟨400, Json.obj [("error", Json.str "Invalid JSON")]⟩, [])
  | Except.ok data =>
      match validate_input data with
      | (false, err) =>
          (Except.ok ⟨400, Json.obj [("error", (err.map Json.str).getD Json.null)]⟩, [])
      | (true, _) =>
          let kvs := match data with
            | Json.obj kvs => kvs
            | _ => []
          let vuln_id := pyStrip (getStr kvs "vulnerability_id")
          match env.lookupError with
          | some e =>
              (Except.ok ⟨500, Json.obj [("error", Json.str "Database lookup failed"),
                                         ("detail", Json.str e)]⟩,
               [Effect.dbLookup vuln_id])
          | none =>
              match env.store.filter (rowMatches vuln_id) with
              | row :: _ =>
                  (Except.ok ⟨200, Json.obj (selectCols LOOKUP_COLUMNS row)⟩,
                   [Effect.dbLookup vuln_id])
              | [] =>
                  let messages := build_messages data
                  match call_llm env.llmOutcome with
                  | (false, msg) =>
                      (Except.ok ⟨502, Json.obj [("error", Json.str "LLM call failed"),
                                                 ("detail", Json.str msg)]⟩,
                       [Effect.dbLookup vuln_id, Effect.llmCall messages])
                  | (true, assistant_text) =>
                      match json_loads assistant_text with
                      | none =>
                          (Except.ok ⟨502, Json.obj [("error", Json.str "LLM returned invalid JSON"),
                                                     ("raw", Json.str assistant_text)]⟩,
                           [Effect.dbLookup vuln_id, Effect.llmCall messages])
                      | some (Json.obj pkvs) =>
                          if expected_keys.all (hasKey pkvs) then
                            let pkvs2 := setKey pkvs "vulnerability_id" (Json.str vuln_id)
                            let insert_data : List (String × Json) :=
                              [("vulnerability_id", Json.str vuln_id),
                               ("description", getJ kvs "description"),
                               ("code_snippet", getJ kvs "code_snippet"),
                               ("language", getJ kvs "language"),
                               ("fix_description", getJ pkvs "fix_description"),
                               ("fixed_code", getJ pkvs "fixed_code")]
                            match env.insertError with
                            | some e =>
                                if strContains e "duplicate key value" then
                                  (Except.ok ⟨409, Json.obj [("error", Json.str
                                      ("Vulnerability ID \x27" ++ vuln_id ++
                                       "\x27 already exists. Use a unique ID."))]⟩,
                                   [Effect.dbLookup vuln_id, Effect.llmCall messages,
                                    Effect.dbInsert insert_data])
                                else
                                  (Except.ok ⟨500, Json.obj [("error", Json.str "Database insert failed"),
                                                             ("detail", Json.str e)]⟩,
                                   [Effect.dbLookup vuln_id, Effect.llmCall messages,
                                    Effect.dbInsert insert_data])
                            | none =>
                                (Except.ok ⟨200, Json.obj pkvs2⟩,
                                 [Effect.dbLookup vuln_id, Effect.llmCall messages,
                                  Effect.dbInsert insert_data])
                          else
                            (Except.ok ⟨502, Json.obj [("error", Json.str "Missing keys in LLM output"),
                                                       ("raw", Json.obj pkvs)]⟩,
                             [Effect.dbLookup vuln_id, Effect.llmCall messages])
                      | some other =>
                          (Except.error ("\x27" ++ pyTypeName other ++
                             "\x27 object has no attribute \x27keys\x27"),
                           [Effect.dbLookup vuln_id, Effect.llmCall messages])

/-! ### Basic lemmas about the dict operations -/

theorem lookupKV_setKey_self (kvs : List (String × Json)) (k : String) (v : Json) :
    lookupKV (setKey kvs k v) k = some v := by
  induction kvs with
  | nil => simp [setKey, lookupKV]
  | cons p rest ih =>
      obtain ⟨k', v'⟩ := p
      by_cases h : k' = k
      · simp [setKey, h, lookupKV]
      · simp [setKey, h, lookupKV, ih]

theorem lookupKV_setKey_ne (kvs : List (String × Json)) (k k' : String) (v : Json)
    (h : k' ≠ k) : lookupKV (setKey kvs k v) k' = lookupKV kvs k' := by
  induction kvs with
  | nil =>
      simp only [setKey, lookupKV]
      rw [if_neg (fun hh => h hh.symm)]
  | cons p rest ih =>
      obtain ⟨k'', v''⟩ := p
      by_cases hk : k'' = k
      · subst hk
        simp only [setKey, if_pos rfl, lookupKV]
        rw [if_neg (fun hh => h hh.symm), if_neg (fun hh => h hh.symm)]
      · simp only [setKey, if_neg hk, lookupKV]
        by_cases hk' : k'' = k'
        · rw [if_pos hk', if_pos hk']
        · rw [if_neg hk', if_neg hk', ih]

theorem setKey_keys_of_hasKey (kvs : List (String × Json)) (k : String) (v : Json)
    (h : hasKey kvs k = true) : (setKey kvs k v).map Prod.fst = kvs.map Prod.fst := by
  induction kvs with
  | nil => simp [hasKey, lookupKV] at h
  | cons p rest ih =>
      obtain ⟨k', v'⟩ := p
      by_cases hk : k' = k
      · subst hk
        simp [setKey]
      · simp only [hasKey, lookupKV, if_neg hk] at h
        simp [setKey, if_neg hk, ih h]

/-! ### Lemmas about validate_input -/

theorem validate_input_shape (data : Json) :
    validate_input data = (true, none) ∨ ∃ e, validate_input data = (false, some e) := by
  cases data with
  | obj kvs =>
      simp only [validate_input]
      split
      · exact Or.inr ⟨_, rfl⟩
      · split
        · exact Or.inr ⟨_, rfl⟩
        · exact Or.inl rfl
  | null => exact Or.inr ⟨_, rfl⟩
  | bool b => exact Or.inr ⟨_, rfl⟩
  | num n => exact Or.inr ⟨_, rfl⟩
  | str s => exact Or.inr ⟨_, rfl⟩
  | arr xs => exact Or.inr ⟨_, rfl⟩

theorem validate_input_true_obj (data : Json) (h : (validate_input data).fst = true) :
    ∃ kvs, data = Json.obj kvs := by
  cases data with
  | obj kvs => exact ⟨kvs, rfl⟩
  | null => simp [validate_input] at h
  | bool b => simp [validate_input] at h
  | num n => simp [validate_input] at h
  | str s => simp [validate_input] at h
  | arr xs => simp [validate_input] at h

theorem validate_input_true_none (data : Json) (h : (validate_input data).fst = true) :
    validate_input data = (true, none) := by
  rcases validate_input_shape data with h' | ⟨e, h'⟩
  · exact h'
  · rw [h'] at h
    simp at h

/-! ### Forward evaluation lemmas for the handler, one per control path -/

theorem analyze_body_error (store : List (List (String × Json))) (le : Option String)
    (llm : Except String String) (ie : Option String) :
    analyze_vulnerability ⟨Except.error (), store, le, llm, ie⟩ =
      (Except.ok ⟨400, Json.obj [("error", Json.str "Invalid JSON")]⟩, []) := rfl

theorem analyze_validation_fail (data : Json) (e : String)
    (store : List (List (String × Json))) (le : Option String)
    (llm : Except String String) (ie : Option String)
    (hval : validate_input data = (false, some e)) :
    analyze_vulnerability ⟨Except.ok data, store, le, llm, ie⟩ =
      (Except.ok ⟨400, Json.obj [("error", Json.str e)]⟩, []) := by
  simp [analyze_vulnerability, hval]

theorem analyze_lookup_fail (kvs : List (String × Json))
    (store : List (List (String × Json))) (e : String)
    (llm : Except String String) (ie : Option String)
    (hval : validate_input (Json.obj kvs) = (true, none)) :
    analyze_vulnerability ⟨Except.ok (Json.obj kvs), store, some e, llm, ie⟩ =
      (Except.ok ⟨500, Json.obj [("error", Json.str "Database lookup failed"),
                                 ("detail", Json.str e)]⟩,
       [Effect.dbLookup (pyStrip (getStr kvs "vulnerability_id"))]) := by
  simp [analyze_vulnerability, hval]

theorem analyze_hit (kvs : List (String × Json))
    (store : List (List (String × Json))) (row : List (String × Json))
    (rest : List (List (String × Json)))
    (llm : Except String String) (ie : Option String)
    (hval : validate_input (Json.obj kvs) = (true, none))
    (hfilter : store.filter (rowMatches (pyStrip (getStr kvs "vulnerability_id"))) = row :: rest) :
    analyze_vulnerability ⟨Except.ok (Json.obj kvs), store, none, llm, ie⟩ =
      (Except.ok ⟨200, Json.obj (selectCols LOOKUP_COLUMNS row)⟩,
       [Effect.dbLookup (pyStrip (getStr kvs "vulnerability_id"))]) := by
  simp [analyze_vulnerability, hval, hfilter]

theorem analyze_llm_fail (kvs : List (String × Json))
    (store : List (List (String × Json))) (m : String) (ie : Option String)
    (hval : validate_input (Json.obj kvs) = (true, none))
    (hfilter : store.filter (rowMatches (pyStrip (getStr kvs "vulnerability_id"))) = []) :
    analyze_vulnerability ⟨Except.ok (Json.obj kvs), store, none, Except.error m, ie⟩ =
      (Except.ok ⟨502, Json.obj [("error", Json.str "LLM call failed"),
                                 ("detail", Json.str m)]⟩,
       [Effect.dbLookup (pyStrip (getStr kvs "vulnerability_id")),
        Effect.llmCall (build_messages (Json.obj kvs))]) := by
  simp [analyze_vulnerability, hval, hfilter, call_llm]

theorem analyze_reply_not_json (kvs : List (String × Json))
    (store : List (List (String × Json))) (t : String) (ie : Option String)
    (hval : validate_input (Json.obj kvs) = (true, none))
    (hfilter : store.filter (rowMatches (pyStrip (getStr kvs "vulnerability_id"))) = [])
    (hloads : json_loads t = none) :
    analyze_vulnerability ⟨Except.ok (Json.obj kvs), store, none, Except.ok t, ie⟩ =
      (Except.ok ⟨502, Json.obj [("error", Json.str "LLM returned invalid JSON"),
                                 ("raw", Json.str t)]⟩,
       [Effect.dbLookup (pyStrip (getStr kvs "vulnerability_id")),
        Effect.llmCall (build_messages (Json.obj kvs))]) := by
  simp [analyze_vulnerability, hval, hfilter, call_llm, hloads]

theorem analyze_reply_nondict (kvs : List (String × Json))
    (store : List (List (String × Json))) (t : String) (v : Json) (ie : Option String)
    (hval : validate_input (Json.obj kvs) = (true, none))
    (hfilter : store.filter (rowMatches (pyStrip (getStr kvs "vulnerability_id"))) = [])
    (hloads : json_loads t = some v)
    (hnobj : ∀ pkvs, v ≠ Json.obj pkvs) :
    analyze_vulnerability ⟨Except.ok (Json.obj kvs), store, none, Except.ok t, ie⟩ =
      (Except.error ("\x27" ++ pyTypeName v ++ "\x27 object has no attribute \x27keys\x27"),
       [Effect.dbLookup (pyStrip (getStr kvs "vulnerability_id")),
        Effect.llmCall (build_messages (Json.obj kvs))]) := by
  cases v with
  | obj pkvs => exact absurd rfl (hnobj pkvs)
  | null => simp [analyze_vulnerability, hval, hfilter, call_llm, hloads, pyTypeName]
  | bool b => simp [analyze_vulnerability, hval, hfilter, call_llm, hloads, pyTypeName]
  | num n => simp [analyze_vulnerability, hval, hfilter, call_llm, hloads, pyTypeName]
  | str s => simp [analyze_vulnerability, hval, hfilter, call_llm, hloads, pyTypeName]
  | arr xs => simp [analyze_vulnerability, hval, hfilter, call_llm, hloads, pyTypeName]

theorem analyze_missing_keys (kvs : List (String × Json))
    (store : List (List (String × Json))) (t : String) (pkvs : List (String × Json))
    (ie : Option String)
    (hval : validate_input (Json.obj kvs) = (true, none))
    (hfilter : store.filter (rowMatches (pyStrip (getStr kvs "vulnerability_id"))) = [])
    (hloads : json_loads t = some (Json.obj pkvs))
    (hkeys : expected_keys.all (hasKey pkvs) = false) :
    analyze_vulnerability ⟨Except.ok (Json.obj kvs), store, none, Except.ok t, ie⟩ =
      (Except.ok ⟨502, Json.obj [("error", Json.str "Missing keys in LLM output"),
                                 ("raw", Json.obj pkvs)]⟩,
       [Effect.dbLookup (pyStrip (getStr kvs "vulnerability_id")),
        Effect.llmCall (build_messages (Json.obj kvs))]) := by
  simp [analyze_vulnerability, hval, hfilter, call_llm, hloads, hkeys]

theorem analyze_insert_dup (kvs : List (String × Json))
    (store : List (List (String × Json))) (t : String) (pkvs : List (String × Json))
    (e : String)
    (hval : validate_input (Json.obj kvs) = (true, none))
    (hfilter : store.filter (rowMatches (pyStrip (getStr kvs "vulnerability_id"))) = [])
    (hloads : json_loads t = some (Json.obj pkvs))
    (hkeys : expected_keys.all (hasKey pkvs) = true)
    (hdup : strContains e "duplicate key value" = true) :
    analyze_vulnerability ⟨Except.ok (Json.obj kvs), store, none, Except.ok t, some e⟩ =
      (Except.ok ⟨409, Json.obj [("error", Json.str
          ("Vulnerability ID \x27" ++ pyStrip (getStr kvs "vulnerability_id") ++
           "\x27 already exists. Use a unique ID."))]⟩,
       [Effect.dbLookup (pyStrip (getStr kvs "vulnerability_id")),
        Effect.llmCall (build_messages (Json.obj kvs)),
        Effect.dbInsert [("vulnerability_id", Json.str (pyStrip (getStr kvs "vulnerability_id"))),
                         ("description", getJ kvs "description"),
                         ("code_snippet", getJ kvs "code_snippet"),
                         ("language", getJ kvs "language"),
                         ("fix_description", getJ pkvs "fix_description"),
                         ("fixed_code", getJ pkvs "fixed_code")]]) := by
  simp [analyze_vulnerability, hval, hfilter, call_llm, hloads, hkeys, hdup]

theorem analyze_insert_other_fail (kvs : List (String × Json))
    (store : List (List (String × Json))) (t : String) (pkvs : List (String × Json))
    (e : String)
    (hval : validate_input (Json.obj kvs) = (true, none))
    (hfilter : store.filter (rowMatches (pyStrip (getStr kvs "vulnerability_id"))) = [])
    (hloads : json_loads t = some (Json.obj pkvs))
    (hkeys : expected_keys.all (hasKey pkvs) = true)
    (hdup : strContains e "duplicate key value" = false) :
    analyze_vulnerability ⟨Except.ok (Json.obj kvs), store, none, Except.ok t, some e⟩ =
      (Except.ok ⟨500, Json.obj [("error", Json.str "Database insert failed"),
                                 ("detail", Json.str e)]⟩,
       [Effect.dbLookup (pyStrip (getStr kvs "vulnerability_id")),
        Effect.llmCall (build_messages (Json.obj kvs)),
        Effect.dbInsert [("vulnerability_id", Json.str (pyStrip (getStr kvs "vulnerability_id"))),
                         ("description", getJ kvs "description"),
                         ("code_snippet", getJ kvs "code_snippet"),
                         ("language", getJ kvs "language"),
                         ("fix_description", getJ pkvs "fix_description"),
                         ("fixed_code", getJ pkvs "fixed_code")]]) := by
  simp [analyze_vulnerability, hval, hfilter, call_llm, hloads, hkeys, hdup]

theorem analyze_fresh_success (kvs : List (String × Json))
    (store : List (List (String × Json))) (t : String) (pkvs : List (String × Json))
    (hval : validate_input (Json.obj kvs) = (true, none))
    (hfilter : store.filter (rowMatches (pyStrip (getStr kvs "vulnerability_id"))) = [])
    (hloads : json_loads t = some (Json.obj pkvs))
    (hkeys : expected_keys.all (hasKey pkvs) = true) :
    analyze_vulnerability ⟨Except.ok (Json.obj kvs), store, none, Except.ok t, none⟩ =
      (Except.ok ⟨200, Json.obj (setKey pkvs "vulnerability_id"
          (Json.str (pyStrip (getStr kvs "vulnerability_id"))))⟩,
       [Effect.dbLookup (pyStrip (getStr kvs "vulnerability_id")),
        Effect.llmCall (build_messages (Json.obj kvs)),
        Effect.dbInsert [("vulnerability_id", Json.str (pyStrip (getStr kvs "vulnerability_id"))),
                         ("description", getJ kvs "description"),
                         ("code_snippet", getJ kvs "code_snippet"),
                         ("language", getJ kvs "language"),
                         ("fix_description", getJ pkvs "fix_description"),
                         ("fixed_code", getJ pkvs "fixed_code")]]) := by
  simp [analyze_vulnerability, hval, hfilter, call_llm, hloads, hkeys]

/-- Exhaustive characterization of the handler: every run of
`analyze_vulnerability` falls in exactly one of the control paths, with the
result computed by the matching forward lemma. -/
theorem analyze_cases (env : Env) :
    (env.body = Except.error () ∧
       analyze_vulnerability env =
         (Except.ok ⟨400, Json.obj [("error", Json.str "Invalid JSON")]⟩, []))
  ∨ (∃ data e, env.body = Except.ok data ∧ validate_input data = (false, some e) ∧
       analyze_vulnerability env =
         (Except.ok ⟨400, Json.obj [("error", Json.str e)]⟩, []))
  ∨ (∃ kvs, env.body = Except.ok (Json.obj kvs) ∧
       validate_input (Json.obj kvs) = (true, none) ∧
      ((∃ e, env.lookupError = some e ∧
          analyze_vulnerability env =
            (Except.ok ⟨500, Json.obj [("error", Json.str "Database lookup failed"),
                                       ("detail", Json.str e)]⟩,
             [Effect.dbLookup (pyStrip (getStr kvs "vulnerability_id"))]))
       ∨ (env.lookupError = none ∧ ∃ row rest,
            env.store.filter (rowMatches (pyStrip (getStr kvs "vulnerability_id"))) = row :: rest ∧
            analyze_vulnerability env =
              (Except.ok ⟨200, Json.obj (selectCols LOOKUP_COLUMNS row)⟩,
               [Effect.dbLookup (pyStrip (getStr kvs "vulnerability_id"))]))
       ∨ (env.lookupError = none ∧
          env.store.filter (rowMatches (pyStrip (getStr kvs "vulnerability_id"))) = [] ∧
          ((∃ m, env.llmOutcome = Except.error m ∧
              analyze_vulnerability env =
                (Except.ok ⟨502, Json.obj [("error", Json.str "LLM call failed"),
                                           ("detail", Json.str m)]⟩,
                 [Effect.dbLookup (pyStrip (getStr kvs "vulnerability_id")),
                  Effect.llmCall (build_messages (Json.obj kvs))]))
           ∨ (∃ t, env.llmOutcome = Except.ok t ∧ json_loads t = none ∧
              analyze_vulnerability env =
                (Except.ok ⟨502, Json.obj [("error", Json.str "LLM returned invalid JSON"),
                                           ("raw", Json.str t)]⟩,
                 [Effect.dbLookup (pyStrip (getStr kvs "vulnerability_id")),
                  Effect.llmCall (build_messages (Json.obj kvs))]))
           ∨ (∃ t v, env.llmOutcome = Except.ok t ∧ json_loads t = some v ∧
              (∀ pkvs, v ≠ Json.obj pkvs) ∧
              analyze_vulnerability env =
                (Except.error ("\x27" ++ pyTypeName v ++ "\x27 object has no attribute \x27keys\x27"),
                 [Effect.dbLookup (pyStrip (getStr kvs "vulnerability_id")),
                  Effect.llmCall (build_messages (Json.obj kvs))]))
           ∨ (∃ t pkvs, env.llmOutcome = Except.ok t ∧ json_loads t = some (Json.obj pkvs) ∧
              expected_keys.all (hasKey pkvs) = false ∧
              analyze_vulnerability env =
                (Except.ok ⟨502, Json.obj [("error", Json.str "Missing keys in LLM output"),
                                           ("raw", Json.obj pkvs)]⟩,
                 [Effect.dbLookup (pyStrip (getStr kvs "vulnerability_id")),
                  Effect.llmCall (build_messages (Json.obj kvs))]))
           ∨ (∃ t pkvs e, env.llmOutcome = Except.ok t ∧ json_loads t = some (Json.obj pkvs) ∧
              expected_keys.all (hasKey pkvs) = true ∧ env.insertError = some e ∧
              strContains e "duplicate key value" = true ∧
              analyze_vulnerability env =
                (Except.ok ⟨409, Json.obj [("error", Json.str
                    ("Vulnerability ID \x27" ++ pyStrip (getStr kvs "vulnerability_id") ++
                     "\x27 already exists. Use a unique ID."))]⟩,
                 [Effect.dbLookup (pyStrip (getStr kvs "vulnerability_id")),
                  Effect.llmCall (build_messages (Json.obj kvs)),
                  Effect.dbInsert [("vulnerability_id", Json.str (pyStrip (getStr kvs "vulnerability_id"))),
                                   ("description", getJ kvs "description"),
                                   ("code_snippet", getJ kvs "code_snippet"),
                                   ("language", getJ kvs "language"),
                                   ("fix_description", getJ pkvs "fix_description"),
                                   ("fixed_code", getJ pkvs "fixed_code")]]))
           ∨ (∃ t pkvs e, env.llmOutcome = Except.ok t ∧ json_loads t = some (Json.obj pkvs) ∧
              expected_keys.all (hasKey pkvs) = true ∧ env.insertError = some e ∧
              strContains e "duplicate key value" = false ∧
              analyze_vulnerability env =
                (Except.ok ⟨500, Json.obj [("error", Json.str "Database insert failed"),
                                           ("detail", Json.str e)]⟩,
                 [Effect.dbLookup (pyStrip (getStr kvs "vulnerability_id")),
                  Effect.llmCall (build_messages (Json.obj kvs)),
                  Effect.dbInsert [("vulnerability_id", Json.str (pyStrip (getStr kvs "vulnerability_id"))),
                                   ("description", getJ kvs "description"),
                                   ("code_snippet", getJ kvs "code_snippet"),
                                   ("language", getJ kvs "language"),
                                   ("fix_description", getJ pkvs "fix_description"),
                                   ("fixed_code", getJ pkvs "fixed_code")]]))
           ∨ (∃ t pkvs, env.llmOutcome = Except.ok t ∧ json_loads t = some (Json.obj pkvs) ∧
              expected_keys.all (hasKey pkvs) = true ∧ env.insertError = none ∧
              analyze_vulnerability env =
                (Except.ok ⟨200, Json.obj (setKey pkvs "vulnerability_id"
                    (Json.str (pyStrip (getStr kvs "vulnerability_id"))))⟩,
                 [Effect.dbLookup (pyStrip (getStr kvs "vulnerability_id")),
                  Effect.llmCall (build_messages (Json.obj kvs)),
                  Effect.dbInsert [("vulnerability_id", Json.str (pyStrip (getStr kvs "vulnerability_id"))),
                                   ("description", getJ kvs "description"),
                                   ("code_snippet", getJ kvs "code_snippet"),
                                   ("language", getJ kvs "language"),
                                   ("fix_description", getJ pkvs "fix_description"),
                                   ("fixed_code", getJ pkvs "fixed_code")]])))))) := by
  obtain ⟨body, store, le, llm, ie⟩ := env
  cases body with
  | error u =>
      cases u
      exact Or.inl ⟨rfl, analyze_body_error store le llm ie⟩
  | ok data =>
      rcases validate_input_shape data with hval | ⟨e, hval⟩
      · have hfst : (validate_input data).fst = true := by rw [hval]
        obtain ⟨kvs, rfl⟩ := validate_input_true_obj data hfst
        refine Or.inr (Or.inr ⟨kvs, rfl, hval, ?_⟩)
        cases le with
        | some e => exact Or.inl ⟨e, rfl, analyze_lookup_fail kvs store e llm ie hval⟩
        | none =>
            rcases hfilter : store.filter (rowMatches (pyStrip (getStr kvs "vulnerability_id"))) with
              _ | ⟨row, rest⟩
            · refine Or.inr (Or.inr ⟨rfl, rfl, ?_⟩)
              cases llm with
              | error m => exact Or.inl ⟨m, rfl, analyze_llm_fail kvs store m ie hval hfilter⟩
              | ok t =>
                  rcases hloads : json_loads t with _ | v
                  · exact Or.inr (Or.inl ⟨t, rfl, hloads,
                      analyze_reply_not_json kvs store t ie hval hfilter hloads⟩)
                  · cases v with
                    | obj pkvs =>
                        rcases hkeys : expected_keys.all (hasKey pkvs) with _ | _
                        · exact Or.inr (Or.inr (Or.inr (Or.inl ⟨t, pkvs, rfl, hloads, hkeys,
                            analyze_missing_keys kvs store t pkvs ie hval hfilter hloads hkeys⟩)))
                        · cases ie with
                          | some e =>
                              rcases hdup : strContains e "duplicate key value" with _ | _
                              · exact Or.inr (Or.inr (Or.inr (Or.inr (Or.inr (Or.inl
                                  ⟨t, pkvs, e, rfl, hloads, hkeys, rfl, hdup,
                                   analyze_insert_other_fail kvs store t pkvs e hval hfilter
                                     hloads hkeys hdup⟩)))))
                              · exact Or.inr (Or.inr (Or.inr (Or.inr (Or.inl
                                  ⟨t, pkvs, e, rfl, hloads, hkeys, rfl, hdup,
                                   analyze_insert_dup kvs store t pkvs e hval hfilter
                                     hloads hkeys hdup⟩))))
                          | none =>
                              exact Or.inr (Or.inr (Or.inr (Or.inr (Or.inr (Or.inr
                                ⟨t, pkvs, rfl, hloads, hkeys, rfl,
                                 analyze_fresh_success kvs store t pkvs hval hfilter
                                   hloads hkeys⟩)))))
                    | null =>
                        exact Or.inr (Or.inr (Or.inl ⟨t, Json.null, rfl, hloads,
                          fun pk h => Json.noConfusion h,
                          analyze_reply_nondict kvs store t Json.null ie hval hfilter hloads
                            (fun pk h => Json.noConfusion h)⟩))
                    | bool b =>
                        exact Or.inr (Or.inr (Or.inl ⟨t, Json.bool b, rfl, hloads,
                          fun pk h => Json.noConfusion h,
                          analyze_reply_nondict kvs store t (Json.bool b) ie hval hfilter hloads
                            (fun pk h => Json.noConfusion h)⟩))
                    | num n =>
                        exact Or.inr (Or.inr (Or.inl ⟨t, Json.num n, rfl, hloads,
                          fun pk h => Json.noConfusion h,
                          analyze_reply_nondict kvs store t (Json.num n) ie hval hfilter hloads
                            (fun pk h => Json.noConfusion h)⟩))
                    | str s =>
                        exact Or.inr (Or.inr (Or.inl ⟨t, Json.str s, rfl, hloads,
                          fun pk h => Json.noConfusion h,
                          analyze_reply_nondict kvs store t (Json.str s) ie hval hfilter hloads
                            (fun pk h => Json.noConfusion h)⟩))
                    | arr xs =>
                        exact Or.inr (Or.inr (Or.inl ⟨t, Json.arr xs, rfl, hloads,
                          fun pk h => Json.noConfusion h,
                          analyze_reply_nondict kvs store t (Json.arr xs) ie hval hfilter hloads
                            (fun pk h => Json.noConfusion h)⟩))
            · exact Or.inr (Or.inl ⟨rfl, row, rest, rfl,
                analyze_hit kvs store row rest llm ie hval hfilter⟩)
      · exact Or.inr (Or.inl ⟨data, e, rfl, hval,
          analyze_validation_fail data e store le llm ie hval⟩)


/-! ### Characterization of validate_input -/

theorem validate_obj_true_iff (kvs : List (String × Json)) :
    (validate_input (Json.obj kvs)).fst = true ↔
      ∀ k ∈ REQUIRED_KEYS, ∃ s, lookupKV kvs k = some (Json.str s) ∧ pyStrip s ≠ "" := by
  simp only [validate_input]
  split
  · rename_i hm
    simp only [Prod.fst]
    constructor
    · intro h; exact absurd h (by simp)
    · intro hall
      exfalso
      rw [ne_eq, List.filter_eq_nil_iff] at hm
      push_neg at hm
      obtain ⟨k, hk, hp⟩ := hm
      obtain ⟨s, hs, _⟩ := hall k hk
      simp only [decide_eq_true_eq, Decidable.not_not] at hp
      rw [hasKey, hs] at hp
      simp at hp
  · rename_i hm
    rw [ne_eq, Decidable.not_not, List.filter_eq_nil_iff] at hm
    split
    · rename_i k hfind
      simp only [Prod.fst]
      constructor
      · intro h; exact absurd h (by simp)
      · intro hall
        exfalso
        have hk := List.mem_of_find?_eq_some hfind
        have hp := List.find?_some hfind
        obtain ⟨s, hs, hne⟩ := hall k hk
        rw [hs] at hp
        simp only [decide_eq_true_eq] at hp
        exact hne hp
    · rename_i hfind
      simp only [Prod.fst]
      constructor
      · intro _
        intro k hk
        have := List.find?_eq_none.mp hfind k hk
        revert this
        match hl : lookupKV kvs k with
        | some (Json.str s) =>
            intro hthis
            simp only [decide_eq_true_eq] at hthis
            exact ⟨s, rfl, hthis⟩
        | none => intro hthis; simp at hthis
        | some Json.null => intro hthis; simp at hthis
        | some (Json.bool b) => intro hthis; simp at hthis
        | some (Json.num n) => intro hthis; simp at hthis
        | some (Json.arr xs) => intro hthis; simp at hthis
        | some (Json.obj o) => intro hthis; simp at hthis
      · intro _; trivial

theorem validate_fail_classify (data : Json) (e : String)
    (h : validate_input data = (false, some e)) :
    ((∀ kvs, data ≠ Json.obj kvs) ∧ e = "JSON body must be an object") ∨
    (∃ kvs, data = Json.obj kvs ∧
       REQUIRED_KEYS.filter (fun k => ¬ hasKey kvs k) ≠ [] ∧
       e = "Missing required fields: " ++
           String.intercalate ", " (REQUIRED_KEYS.filter (fun k => ¬ hasKey kvs k))) ∨
    (∃ kvs k, data = Json.obj kvs ∧ k ∈ REQUIRED_KEYS ∧
       ¬(∃ s, lookupKV kvs k = some (Json.str s) ∧ pyStrip s ≠ "") ∧
       e = "Field \x27" ++ k ++ "\x27 must be a non-empty string") := by
  cases data with
  | obj kvs =>
      simp only [validate_input] at h
      split at h
      · rename_i hm
        obtain ⟨-, he⟩ := Prod.mk.injEq .. ▸ h
        refine Or.inr (Or.inl ⟨kvs, rfl, hm, ?_⟩)
        exact (Option.some.injEq .. ▸ he).symm
      · split at h
        · rename_i k hfind
          have hk := List.mem_of_find?_eq_some hfind
          have hp := List.find?_some hfind
          obtain ⟨-, he⟩ := Prod.mk.injEq .. ▸ h
          refine Or.inr (Or.inr ⟨kvs, k, rfl, hk, ?_, (Option.some.injEq .. ▸ he).symm⟩)
          revert hp
          match hl : lookupKV kvs k with
          | some (Json.str s) =>
              intro hp
              simp only [decide_eq_true_eq] at hp
              rintro ⟨s', hs', hne⟩
              cases hs'
              exact hne hp
          | none => intro _; rintro ⟨s', hs', _⟩; cases hs'
          | some Json.null => intro _; rintro ⟨s', hs', _⟩; cases hs'
          | some (Json.bool b) => intro _; rintro ⟨s', hs', _⟩; cases hs'
          | some (Json.num n) => intro _; rintro ⟨s', hs', _⟩; cases hs'
          | some (Json.arr xs) => intro _; rintro ⟨s', hs', _⟩; cases hs'
          | some (Json.obj o) => intro _; rintro ⟨s', hs', _⟩; cases hs'
        · simp at h
  | null =>
      refine Or.inl ⟨fun kvs => Json.noConfusion, ?_⟩
      simp [validate_input] at h
      exact h.symm
  | bool b =>
      refine Or.inl ⟨fun kvs => Json.noConfusion, ?_⟩
      simp [validate_input] at h
      exact h.symm
  | num n =>
      refine Or.inl ⟨fun kvs => Json.noConfusion, ?_⟩
      simp [validate_input] at h
      exact h.symm
  | str s =>
      refine Or.inl ⟨fun kvs => Json.noConfusion, ?_⟩
      simp [validate_input] at h
      exact h.symm
  | arr xs =>
      refine Or.inl ⟨fun kvs => Json.noConfusion, ?_⟩
      simp [validate_input] at h
      exact h.symm

/-! ### Derived facts about valid runs -/

theorem rowMatches_lookup (row : List (String × Json)) (id : String)
    (h : rowMatches id row = true) :
    lookupKV row "vulnerability_id" = some (Json.str id) := by
  unfold rowMatches at h
  revert h
  match hl : lookupKV row "vulnerability_id" with
  | some (Json.str s) =>
      intro h
      simp only [decide_eq_true_eq] at h
      rw [h]
  | none => intro h; exact Bool.noConfusion h
  | some Json.null => intro h; exact Bool.noConfusion h
  | some (Json.bool b) => intro h; exact Bool.noConfusion h
  | some (Json.num n) => intro h; exact Bool.noConfusion h
  | some (Json.arr xs) => intro h; exact Bool.noConfusion h
  | some (Json.obj o) => intro h; exact Bool.noConfusion h

theorem selectCols_vid (row : List (String × Json)) (v : Json)
    (h : lookupKV row "vulnerability_id" = some v) :
    lookupKV (selectCols LOOKUP_COLUMNS row) "vulnerability_id" = some v := by
  simp [selectCols, LOOKUP_COLUMNS, List.filterMap_cons, h, lookupKV]

theorem expected_keys_all_unpack (pkvs : List (String × Json))
    (h : expected_keys.all (hasKey pkvs) = true) :
    hasKey pkvs "vulnerability_id" = true ∧ hasKey pkvs "fixed_code" = true ∧
      hasKey pkvs "fix_description" = true := by
  simp [expected_keys, List.all] at h
  exact ⟨h.1, h.2.1, h.2.2⟩

theorem hasKey_exists (kvs : List (String × Json)) (k : String)
    (h : hasKey kvs k = true) : ∃ v, lookupKV kvs k = some v := by
  unfold hasKey at h
  exact Option.isSome_iff_exists.mp h

theorem getStr_eq (kvs : List (String × Json)) (k s : String)
    (h : lookupKV kvs k = some (Json.str s)) : getStr kvs k = s := by
  unfold getStr
  rw [h]

theorem analyze_valid_run_facts (env : Env) (kvs : List (String × Json))
    (hbody : env.body = Except.ok (Json.obj kvs))
    (hval : validate_input (Json.obj kvs) = (true, none)) :
    (∃ tr, (analyze_vulnerability env).snd =
        Effect.dbLookup (pyStrip (getStr kvs "vulnerability_id")) :: tr) ∧
    (∀ msgs, Effect.llmCall msgs ∈ (analyze_vulnerability env).snd →
        msgs = build_messages (Json.obj kvs)) ∧
    (∀ rec, Effect.dbInsert rec ∈ (analyze_vulnerability env).snd →
        ∃ pkvs, expected_keys.all (hasKey pkvs) = true ∧
          rec = [("vulnerability_id", Json.str (pyStrip (getStr kvs "vulnerability_id"))),
                 ("description", getJ kvs "description"),
                 ("code_snippet", getJ kvs "code_snippet"),
                 ("language", getJ kvs "language"),
                 ("fix_description", getJ pkvs "fix_description"),
                 ("fixed_code", getJ pkvs "fixed_code")]) ∧
    (∀ resp, (analyze_vulnerability env).fst = Except.ok resp → resp.status = 200 →
        jsonField resp.body "vulnerability_id" =
          some (Json.str (pyStrip (getStr kvs "vulnerability_id")))) := by
  rcases analyze_cases env with
    ⟨hb, hrun⟩ |
    ⟨data, e, hb, hv, hrun⟩ |
    ⟨kvs', hb, hv, hsub⟩
  · rw [hbody] at hb
    exact Except.noConfusion hb
  · rw [hbody] at hb
    injection hb with h1
    subst h1
    rw [hval] at hv
    simp at hv
  · rw [hbody] at hb
    injection hb with h1
    injection h1 with h2
    subst h2
    rcases hsub with
      ⟨e, hle, hrun⟩ |
      ⟨hle, row, rest, hfil, hrun⟩ |
      ⟨hle, hfil, hllm⟩
    · rw [hrun]
      refine ⟨⟨[], rfl⟩, ?_, ?_, ?_⟩
      · intro msgs hmem; simp at hmem
      · intro rec hmem; simp at hmem
      · intro resp hres hstat
        injection hres with h3
        subst h3
        simp at hstat
    · rw [hrun]
      have hrow : rowMatches (pyStrip (getStr kvs "vulnerability_id")) row = true := by
        have hmem : row ∈ env.store.filter
            (rowMatches (pyStrip (getStr kvs "vulnerability_id"))) := by
          rw [hfil]; exact List.mem_cons_self row rest
        exact (List.mem_filter.mp hmem).2
      refine ⟨⟨[], rfl⟩, ?_, ?_, ?_⟩
      · intro msgs hmem; simp at hmem
      · intro rec hmem; simp at hmem
      · intro resp hres hstat
        injection hres with h3
        subst h3
        simp only [jsonField]
        exact selectCols_vid row _ (rowMatches_lookup row _ hrow)
    · rcases hllm with
        ⟨m, hok, hrun⟩ |
        ⟨t, hok, hloads, hrun⟩ |
        ⟨t, v, hok, hloads, hnobj, hrun⟩ |
        ⟨t, pkvs, hok, hloads, hkeys, hrun⟩ |
        ⟨t, pkvs, e, hok, hloads, hkeys, hie, hdup, hrun⟩ |
        ⟨t, pkvs, e, hok, hloads, hkeys, hie, hdup, hrun⟩ |
        ⟨t, pkvs, hok, hloads, hkeys, hie, hrun⟩
      · rw [hrun]
        refine ⟨⟨_, rfl⟩, ?_, ?_, ?_⟩
        · intro msgs hmem
          simp at hmem
          exact hmem
        · intro rec hmem; simp at hmem
        · intro resp hres hstat
          injection hres with h3
          subst h3
          simp at hstat
      · rw [hrun]
        refine ⟨⟨_, rfl⟩, ?_, ?_, ?_⟩
        · intro msgs hmem
          simp at hmem
          exact hmem
        · intro rec hmem; simp at hmem
        · intro resp hres hstat
          injection hres with h3
          subst h3
          simp at hstat
      · rw [hrun]
        refine ⟨⟨_, rfl⟩, ?_, ?_, ?_⟩
        · intro msgs hmem
          simp at hmem
          exact hmem
        · intro rec hmem; simp at hmem
        · intro resp hres hstat
          exact Except.noConfusion hres
      · rw [hrun]
        refine ⟨⟨_, rfl⟩, ?_, ?_, ?_⟩
        · intro msgs hmem
          simp at hmem
          exact hmem
        · intro rec hmem; simp at hmem
        · intro resp hres hstat
          injection hres with h3
          subst h3
          simp at hstat
      · rw [hrun]
        refine ⟨⟨_, rfl⟩, ?_, ?_, ?_⟩
        · intro msgs hmem
          simp at hmem
          exact hmem
        · intro rec hmem
          simp at hmem
          exact ⟨pkvs, hkeys, hmem⟩
        · intro resp hres hstat
          injection hres with h3
          subst h3
          simp at hstat
      · rw [hrun]
        refine ⟨⟨_, rfl⟩, ?_, ?_, ?_⟩
        · intro msgs hmem
          simp at hmem
          exact hmem
        · intro rec hmem
          simp at hmem
          exact ⟨pkvs, hkeys, hmem⟩
        · intro resp hres hstat
          injection hres with h3
          subst h3
          simp at hstat
      · rw [hrun]
        refine ⟨⟨_, rfl⟩, ?_, ?_, ?_⟩
        · intro msgs hmem
          simp at hmem
          exact hmem
        · intro rec hmem
          simp at hmem
          exact ⟨pkvs, hkeys, hmem⟩
        · intro resp hres hstat
          injection hres with h3
          subst h3
          simp only [jsonField]
          exact lookupKV_setKey_self pkvs "vulnerability_id" _


theorem status200_valid (env : Env) (kvs : List (String × Json)) (resp : Response)
    (hbody : env.body = Except.ok (Json.obj kvs))
    (hres : (analyze_vulnerability env).fst = Except.ok resp)
    (hstatus : resp.status = 200) :
    validate_input (Json.obj kvs) = (true, none) := by
  rcases analyze_cases env with
    ⟨hb, hrun⟩ |
    ⟨data, e, hb, hv, hrun⟩ |
    ⟨kvs', hb, hv, hsub⟩
  · rw [hbody] at hb
    exact Except.noConfusion hb
  · rw [hrun] at hres
    injection hres with h3
    subst h3
    simp at hstatus
  · rw [hbody] at hb
    injection hb with h1
    injection h1 with h2
    subst h2
    exact hv

/-! ### Claims -/

/-- C1 (amended): for every successful response — cache hit or fresh analysis —
the vulnerability_id field of the response body equals the caller-supplied
vulnerability_id with leading and trailing whitespace stripped; in particular
it never comes from the value the LLM placed in that field. (The claim as
stated, equality with the caller-supplied id itself, fails when that id
carries surrounding whitespace; see the counterexample.) -/
theorem C1_response_id_stripped (env : Env) (kvs : List (String × Json))
    (id : String) (resp : Response)
    (hbody : env.body = Except.ok (Json.obj kvs))
    (hid : lookupKV kvs "vulnerability_id" = some (Json.str id))
    (hres : (analyze_vulnerability env).fst = Except.ok resp)
    (hstatus : resp.status = 200) :
    jsonField resp.body "vulnerability_id" = some (Json.str (pyStrip id)) := by
  have hval := status200_valid env kvs resp hbody hres hstatus
  have hfacts := (analyze_valid_run_facts env kvs hbody hval).2.2.2 resp hres hstatus
  rwa [getStr_eq kvs "vulnerability_id" id hid] at hfacts

/-- C1 counterexample: the caller supplies vulnerability_id " V1 " (valid:
non-blank after trimming); the fresh analysis succeeds with 200, the LLM even
echoed a different id, and the response's vulnerability_id field is the
stripped "V1" — not the caller-supplied " V1 ". -/
theorem C1_counterexample :
    (analyze_vulnerability ⟨Except.ok (Json.obj
        [("vulnerability_id", Json.str " V1 "),
         ("description", Json.str "SQL injection"),
         ("code_snippet", Json.str "q"),
         ("language", Json.str "python")]), [], none,
        Except.ok "\x7b\"vulnerability_id\": \"WRONG\", \"fixed_code\": \"qq\", \"fix_description\": \"fix\"\x7d",
        none⟩).fst =
      Except.ok ⟨200, Json.obj [("vulnerability_id", Json.str "V1"),
                                ("fixed_code", Json.str "qq"),
                                ("fix_description", Json.str "fix")]⟩ ∧
    ("V1" : String) ≠ " V1 " :=
  ⟨rfl, by decide⟩

/-- C1 witness: the amended theorem applied to a concrete run whose caller id
is " V1 ". -/
theorem C1_witness :
    jsonField (Json.obj [("vulnerability_id", Json.str "V1"),
                         ("fixed_code", Json.str "qq"),
                         ("fix_description", Json.str "fix")]) "vulnerability_id" =
      some (Json.str (pyStrip " V1 ")) :=
  C1_response_id_stripped
    ⟨Except.ok (Json.obj
        [("vulnerability_id", Json.str " V1 "),
         ("description", Json.str "SQL injection"),
         ("code_snippet", Json.str "q"),
         ("language", Json.str "python")]), [], none,
        Except.ok "\x7b\"vulnerability_id\": \"WRONG\", \"fixed_code\": \"qq\", \"fix_description\": \"fix\"\x7d",
        none⟩
    [("vulnerability_id", Json.str " V1 "),
     ("description", Json.str "SQL injection"),
     ("code_snippet", Json.str "q"),
     ("language", Json.str "python")]
    " V1 "
    ⟨200, Json.obj [("vulnerability_id", Json.str "V1"),
                    ("fixed_code", Json.str "qq"),
                    ("fix_description", Json.str "fix")]⟩
    rfl rfl rfl rfl

/-- C2: validation succeeds iff the parsed body is an object binding each of
the four required keys to a string that is non-empty after trimming; a success
is exactly `(true, none)` (nothing is altered); every failure reason is the
not-an-object message, the list of missing field names, or the name of a field
failing the non-empty-string check; and on failure the endpoint returns 400
with that reason (and, per the empty effect list, does nothing else). -/
theorem C2_input_validation (data : Json) :
    ((validate_input data).fst = true ↔
       ∃ kvs, data = Json.obj kvs ∧
         ∀ k ∈ REQUIRED_KEYS, ∃ s, lookupKV kvs k = some (Json.str s) ∧ pyStrip s ≠ "") ∧
    ((validate_input data).fst = true → validate_input data = (true, none)) ∧
    (∀ e, validate_input data = (false, some e) →
       ((∀ kvs, data ≠ Json.obj kvs) ∧ e = "JSON body must be an object") ∨
       (∃ kvs, data = Json.obj kvs ∧
          REQUIRED_KEYS.filter (fun k => ¬ hasKey kvs k) ≠ [] ∧
          e = "Missing required fields: " ++
              String.intercalate ", " (REQUIRED_KEYS.filter (fun k => ¬ hasKey kvs k))) ∨
       (∃ kvs k, data = Json.obj kvs ∧ k ∈ REQUIRED_KEYS ∧
          ¬(∃ s, lookupKV kvs k = some (Json.str s) ∧ pyStrip s ≠ "") ∧
          e = "Field \x27" ++ k ++ "\x27 must be a non-empty string")) ∧
    (∀ env e, env.body = Except.ok data → validate_input data = (false, some e) →
       analyze_vulnerability env =
         (Except.ok ⟨400, Json.obj [("error", Json.str e)]⟩, [])) := by
  refine ⟨?_, validate_input_true_none data, fun e h => validate_fail_classify data e h, ?_⟩
  · constructor
    · intro h
      obtain ⟨kvs, rfl⟩ := validate_input_true_obj data h
      exact ⟨kvs, rfl, (validate_obj_true_iff kvs).mp h⟩
    · rintro ⟨kvs, rfl, hf⟩
      exact (validate_obj_true_iff kvs).mpr hf
  · intro env e hbody hv
    obtain ⟨body, store, le, llm, ie⟩ := env
    subst hbody
    exact analyze_validation_fail data e store le llm ie hv

/-- C2 witness: a body missing three of the four required fields is rejected
with a 400 naming exactly the missing fields, and the handler performs no
external interaction. -/
theorem C2_witness :
    validate_input (Json.obj [("vulnerability_id", Json.str "V1")]) =
      (false, some "Missing required fields: description, code_snippet, language") ∧
    analyze_vulnerability ⟨Except.ok (Json.obj [("vulnerability_id", Json.str "V1")]),
        [], none, Except.ok "", none⟩ =
      (Except.ok ⟨400, Json.obj [("error",
          Json.str "Missing required fields: description, code_snippet, language")]⟩, []) :=
  ⟨rfl,
   (C2_input_validation (Json.obj [("vulnerability_id", Json.str "V1")])).2.2.2
     ⟨Except.ok (Json.obj [("vulnerability_id", Json.str "V1")]), [], none, Except.ok "", none⟩
     "Missing required fields: description, code_snippet, language" rfl rfl⟩

/-- C3: for a valid request whose stripped vulnerability_id already has a
stored record, the handler short-circuits: it returns 200 with the selected
columns of the stored row and the effect trace holds the lookup only — no LLM
call and no insert; and when the lookup itself raises, the handler returns 500
with error "Database lookup failed" carrying the underlying message,
distinguishable from the not-found path. -/
theorem C3_lookup_short_circuit (kvs : List (String × Json))
    (store : List (List (String × Json)))
    (llm : Except String String) (ie : Option String)
    (hval : validate_input (Json.obj kvs) = (true, none)) :
    (∀ row rest,
        store.filter (rowMatches (pyStrip (getStr kvs "vulnerability_id"))) = row :: rest →
        analyze_vulnerability ⟨Except.ok (Json.obj kvs), store, none, llm, ie⟩ =
          (Except.ok ⟨200, Json.obj (selectCols LOOKUP_COLUMNS row)⟩,
           [Effect.dbLookup (pyStrip (getStr kvs "vulnerability_id"))])) ∧
    (∀ e, analyze_vulnerability ⟨Except.ok (Json.obj kvs), store, some e, llm, ie⟩ =
        (Except.ok ⟨500, Json.obj [("error", Json.str "Database lookup failed"),
                                   ("detail", Json.str e)]⟩,
         [Effect.dbLookup (pyStrip (getStr kvs "vulnerability_id"))])) :=
  ⟨fun row rest hf => analyze_hit kvs store row rest llm ie hval hf,
   fun e => analyze_lookup_fail kvs store e llm ie hval⟩

/-- C3 witness: a concrete stored record for id "V1" is returned as-is with
200 and only the lookup in the trace; a concrete lookup exception yields the
500 "Database lookup failed" body. -/
theorem C3_witness :
    analyze_vulnerability ⟨Except.ok (Json.obj
        [("vulnerability_id", Json.str "V1"), ("description", Json.str "d"),
         ("code_snippet", Json.str "c"), ("language", Json.str "py")]),
        [[("vulnerability_id", Json.str "V1"), ("description", Json.str "old"),
          ("fix_description", Json.str "fd"), ("fixed_code", Json.str "fc")]],
        none, Except.ok "x", none⟩ =
      (Except.ok ⟨200, Json.obj [("vulnerability_id", Json.str "V1"),
                                 ("fix_description", Json.str "fd"),
                                 ("fixed_code", Json.str "fc")]⟩,
       [Effect.dbLookup "V1"]) ∧
    analyze_vulnerability ⟨Except.ok (Json.obj
        [("vulnerability_id", Json.str "V1"), ("description", Json.str "d"),
         ("code_snippet", Json.str "c"), ("language", Json.str "py")]),
        [], some "connection refused", Except.ok "x", none⟩ =
      (Except.ok ⟨500, Json.obj [("error", Json.str "Database lookup failed"),
                                 ("detail", Json.str "connection refused")]⟩,
       [Effect.dbLookup "V1"]) :=
  ⟨(C3_lookup_short_circuit
      [("vulnerability_id", Json.str "V1"), ("description", Json.str "d"),
       ("code_snippet", Json.str "c"), ("language", Json.str "py")]
      [[("vulnerability_id", Json.str "V1"), ("description", Json.str "old"),
        ("fix_description", Json.str "fd"), ("fixed_code", Json.str "fc")]]
      (Except.ok "x") none rfl).1
     [("vulnerability_id", Json.str "V1"), ("description", Json.str "old"),
      ("fix_description", Json.str "fd"), ("fixed_code", Json.str "fc")] [] rfl,
   (C3_lookup_short_circuit
      [("vulnerability_id", Json.str "V1"), ("description", Json.str "d"),
       ("code_snippet", Json.str "c"), ("language", Json.str "py")]
      [] (Except.ok "x") none rfl).2 "connection refused"⟩

/-- C4 (amended): a reply that is not parseable JSON yields 502 with error
"LLM returned invalid JSON" and the raw reply text attached verbatim under
"raw"; a reply parsing to a JSON object that lacks a required key yields 502
with error "Missing keys in LLM output" and the PARSED object — not the raw
reply text — attached under "raw"; and a reply parsing to a non-object JSON
value makes `parsed.keys()` raise an uncaught AttributeError, so no 502 (or
any handler-built) response is produced at all. -/
theorem C4_llm_reply_errors (kvs : List (String × Json))
    (store : List (List (String × Json))) (t : String) (ie : Option String)
    (hval : validate_input (Json.obj kvs) = (true, none))
    (hfilter : store.filter (rowMatches (pyStrip (getStr kvs "vulnerability_id"))) = []) :
    (json_loads t = none →
       analyze_vulnerability ⟨Except.ok (Json.obj kvs), store, none, Except.ok t, ie⟩ =
         (Except.ok ⟨502, Json.obj [("error", Json.str "LLM returned invalid JSON"),
                                    ("raw", Json.str t)]⟩,
          [Effect.dbLookup (pyStrip (getStr kvs "vulnerability_id")),
           Effect.llmCall (build_messages (Json.obj kvs))])) ∧
    (∀ pkvs, json_loads t = some (Json.obj pkvs) →
       expected_keys.all (hasKey pkvs) = false →
       analyze_vulnerability ⟨Except.ok (Json.obj kvs), store, none, Except.ok t, ie⟩ =
         (Except.ok ⟨502, Json.obj [("error", Json.str "Missing keys in LLM output"),
                                    ("raw", Json.obj pkvs)]⟩,
          [Effect.dbLookup (pyStrip (getStr kvs "vulnerability_id")),
           Effect.llmCall (build_messages (Json.obj kvs))])) ∧
    (∀ v, json_loads t = some v → (∀ pkvs, v ≠ Json.obj pkvs) →
       analyze_vulnerability ⟨Except.ok (Json.obj kvs), store, none, Except.ok t, ie⟩ =
         (Except.error ("\x27" ++ pyTypeName v ++ "\x27 object has no attribute \x27keys\x27"),
          [Effect.dbLookup (pyStrip (getStr kvs "vulnerability_id")),
           Effect.llmCall (build_messages (Json.obj kvs))])) :=
  ⟨fun h => analyze_reply_not_json kvs store t ie hval hfilter h,
   fun pkvs h hk => analyze_missing_keys kvs store t pkvs ie hval hfilter h hk,
   fun v h hn => analyze_reply_nondict kvs store t v ie hval hfilter h hn⟩

/-- C4 counterexample: the reply "[1, 2]" parses as JSON and has none of the
required keys, yet the handler does not answer 502 "Missing keys in LLM
output": `parsed.keys()` raises and the exception escapes the handler. Also,
for the object reply with a missing key, the "raw" field carries the parsed
object, not the raw reply string. -/
theorem C4_counterexample :
    json_loads "[1, 2]" = some (Json.arr [Json.num 1, Json.num 2]) ∧
    jsonField (Json.arr [Json.num 1, Json.num 2]) "fixed_code" = none ∧
    (analyze_vulnerability ⟨Except.ok (Json.obj
        [("vulnerability_id", Json.str "V1"), ("description", Json.str "d"),
         ("code_snippet", Json.str "c"), ("language", Json.str "py")]),
        [], none, Except.ok "[1, 2]", none⟩).fst =
      Except.error "\x27list\x27 object has no attribute \x27keys\x27" ∧
    (analyze_vulnerability ⟨Except.ok (Json.obj
        [("vulnerability_id", Json.str "V1"), ("description", Json.str "d"),
         ("code_snippet", Json.str "c"), ("language", Json.str "py")]),
        [], none, Except.ok "\x7b\"a\": 1\x7d", none⟩).fst =
      Except.ok ⟨502, Json.obj [("error", Json.str "Missing keys in LLM output"),
                                ("raw", Json.obj [("a", Json.num 1)])]⟩ ∧
    Json.obj [("a", Json.num 1)] ≠ Json.str "\x7b\"a\": 1\x7d" :=
  ⟨rfl, rfl, rfl, rfl, fun h => Json.noConfusion h⟩

/-- C4 witness: the amended theorem at a concrete unparseable reply, whose
text is attached verbatim. -/
theorem C4_witness :
    analyze_vulnerability ⟨Except.ok (Json.obj
        [("vulnerability_id", Json.str "V1"), ("description", Json.str "d"),
         ("code_snippet", Json.str "c"), ("language", Json.str "py")]),
        [], none, Except.ok "oops, not json", none⟩ =
      (Except.ok ⟨502, Json.obj [("error", Json.str "LLM returned invalid JSON"),
                                 ("raw", Json.str "oops, not json")]⟩,
       [Effect.dbLookup "V1",
        Effect.llmCall (build_messages (Json.obj
          [("vulnerability_id", Json.str "V1"), ("description", Json.str "d"),
           ("code_snippet", Json.str "c"), ("language", Json.str "py")]))]) :=
  (C4_llm_reply_errors
    [("vulnerability_id", Json.str "V1"), ("description", Json.str "d"),
     ("code_snippet", Json.str "c"), ("language", Json.str "py")]
    [] "oops, not json" none rfl rfl).1 rfl


/-- C5: when the insert raises with a uniqueness violation (Postgres
"duplicate key value" in the message) the response is 409 with an error naming
the duplicate vulnerability_id; any other insert failure yields 500 with error
"Database insert failed" carrying the underlying message; and on insert
success the response is 200 and its body carries the fix fields (fixed_code
and fix_description of the parsed reply). -/
theorem C5_insert_outcomes (kvs : List (String × Json))
    (store : List (List (String × Json))) (t : String) (pkvs : List (String × Json))
    (hval : validate_input (Json.obj kvs) = (true, none))
    (hfilter : store.filter (rowMatches (pyStrip (getStr kvs "vulnerability_id"))) = [])
    (hloads : json_loads t = some (Json.obj pkvs))
    (hkeys : expected_keys.all (hasKey pkvs) = true) :
    (∀ e, strContains e "duplicate key value" = true →
        analyze_vulnerability ⟨Except.ok (Json.obj kvs), store, none, Except.ok t, some e⟩ =
          (Except.ok ⟨409, Json.obj [("error", Json.str
              ("Vulnerability ID \x27" ++ pyStrip (getStr kvs "vulnerability_id") ++
               "\x27 already exists. Use a unique ID."))]⟩,
           [Effect.dbLookup (pyStrip (getStr kvs "vulnerability_id")),
            Effect.llmCall (build_messages (Json.obj kvs)),
            Effect.dbInsert [("vulnerability_id", Json.str (pyStrip (getStr kvs "vulnerability_id"))),
                             ("description", getJ kvs "description"),
                             ("code_snippet", getJ kvs "code_snippet"),
                             ("language", getJ kvs "language"),
                             ("fix_description", getJ pkvs "fix_description"),
                             ("fixed_code", getJ pkvs "fixed_code")]])) ∧
    (∀ e, strContains e "duplicate key value" = false →
        analyze_vulnerability ⟨Except.ok (Json.obj kvs), store, none, Except.ok t, some e⟩ =
          (Except.ok ⟨500, Json.obj [("error", Json.str "Database insert failed"),
                                     ("detail", Json.str e)]⟩,
           [Effect.dbLookup (pyStrip (getStr kvs "vulnerability_id")),
            Effect.llmCall (build_messages (Json.obj kvs)),
            Effect.dbInsert [("vulnerability_id", Json.str (pyStrip (getStr kvs "vulnerability_id"))),
                             ("description", getJ kvs "description"),
                             ("code_snippet", getJ kvs "code_snippet"),
                             ("language", getJ kvs "language"),
                             ("fix_description", getJ pkvs "fix_description"),
                             ("fixed_code", getJ pkvs "fixed_code")]])) ∧
    (analyze_vulnerability ⟨Except.ok (Json.obj kvs), store, none, Except.ok t, none⟩ =
       (Except.ok ⟨200, Json.obj (setKey pkvs "vulnerability_id"
           (Json.str (pyStrip (getStr kvs "vulnerability_id"))))⟩,
        [Effect.dbLookup (pyStrip (getStr kvs "vulnerability_id")),
         Effect.llmCall (build_messages (Json.obj kvs)),
         Effect.dbInsert [("vulnerability_id", Json.str (pyStrip (getStr kvs "vulnerability_id"))),
                          ("description", getJ kvs "description"),
                          ("code_snippet", getJ kvs "code_snippet"),
                          ("language", getJ kvs "language"),
                          ("fix_description", getJ pkvs "fix_description"),
                          ("fixed_code", getJ pkvs "fixed_code")]]) ∧
     ∃ fc fd, lookupKV pkvs "fixed_code" = some fc ∧
       lookupKV pkvs "fix_description" = some fd ∧
       jsonField (Json.obj (setKey pkvs "vulnerability_id"
           (Json.str (pyStrip (getStr kvs "vulnerability_id"))))) "fixed_code" = some fc ∧
       jsonField (Json.obj (setKey pkvs "vulnerability_id"
           (Json.str (pyStrip (getStr kvs "vulnerability_id"))))) "fix_description" = some fd) := by
  obtain ⟨hk1, hk2, hk3⟩ := expected_keys_all_unpack pkvs hkeys
  obtain ⟨fc, hfc⟩ := hasKey_exists pkvs "fixed_code" hk2
  obtain ⟨fd, hfd⟩ := hasKey_exists pkvs "fix_description" hk3
  refine ⟨fun e hd => analyze_insert_dup kvs store t pkvs e hval hfilter hloads hkeys hd,
          fun e hd => analyze_insert_other_fail kvs store t pkvs e hval hfilter hloads hkeys hd,
          analyze_fresh_success kvs store t pkvs hval hfilter hloads hkeys,
          fc, fd, hfc, hfd, ?_, ?_⟩
  · simp only [jsonField]
    rw [lookupKV_setKey_ne pkvs "vulnerability_id" "fixed_code" _ (by decide)]
    exact hfc
  · simp only [jsonField]
    rw [lookupKV_setKey_ne pkvs "vulnerability_id" "fix_description" _ (by decide)]
    exact hfd

/-- C5 witness: a concrete duplicate-key insert failure produces the 409 body
naming the id "V1". -/
theorem C5_witness :
    analyze_vulnerability ⟨Except.ok (Json.obj
        [("vulnerability_id", Json.str "V1"), ("description", Json.str "d"),
         ("code_snippet", Json.str "c"), ("language", Json.str "py")]),
        [], none,
        Except.ok "\x7b\"vulnerability_id\": \"V1\", \"fixed_code\": \"qq\", \"fix_description\": \"fix\"\x7d",
        some "ERROR: duplicate key value violates unique constraint"⟩ =
      (Except.ok ⟨409, Json.obj [("error",
          Json.str "Vulnerability ID \x27V1\x27 already exists. Use a unique ID.")]⟩,
       [Effect.dbLookup "V1",
        Effect.llmCall (build_messages (Json.obj
          [("vulnerability_id", Json.str "V1"), ("description", Json.str "d"),
           ("code_snippet", Json.str "c"), ("language", Json.str "py")])),
        Effect.dbInsert [("vulnerability_id", Json.str "V1"),
                         ("description", Json.str "d"),
                         ("code_snippet", Json.str "c"),
                         ("language", Json.str "py"),
                         ("fix_description", Json.str "fix"),
                         ("fixed_code", Json.str "qq")]]) :=
  (C5_insert_outcomes
    [("vulnerability_id", Json.str "V1"), ("description", Json.str "d"),
     ("code_snippet", Json.str "c"), ("language", Json.str "py")]
    [] "\x7b\"vulnerability_id\": \"V1\", \"fixed_code\": \"qq\", \"fix_description\": \"fix\"\x7d"
    [("vulnerability_id", Json.str "V1"), ("fixed_code", Json.str "qq"),
     ("fix_description", Json.str "fix")]
    rfl rfl rfl rfl).1
    "ERROR: duplicate key value violates unique constraint" rfl

/-- C6 (amended): the 200 body of a fresh success is the parsed LLM reply with
its vulnerability_id overwritten by the stripped caller id: its key set is
exactly the reply object's key set — the three required keys plus, verbatim,
any additional keys the reply contained. In particular it is exactly the three
required keys precisely when the reply carried exactly those. (The claim as
stated — exactly three keys whatever the reply contained — fails; see the
counterexample.) -/
theorem C6_success_body_keys (kvs : List (String × Json))
    (store : List (List (String × Json))) (t : String) (pkvs : List (String × Json))
    (hval : validate_input (Json.obj kvs) = (true, none))
    (hfilter : store.filter (rowMatches (pyStrip (getStr kvs "vulnerability_id"))) = [])
    (hloads : json_loads t = some (Json.obj pkvs))
    (hkeys : expected_keys.all (hasKey pkvs) = true) :
    (analyze_vulnerability ⟨Except.ok (Json.obj kvs), store, none, Except.ok t, none⟩).fst =
      Except.ok ⟨200, Json.obj (setKey pkvs "vulnerability_id"
          (Json.str (pyStrip (getStr kvs "vulnerability_id"))))⟩ ∧
    objKeys (Json.obj (setKey pkvs "vulnerability_id"
        (Json.str (pyStrip (getStr kvs "vulnerability_id"))))) = pkvs.map Prod.fst ∧
    (pkvs.map Prod.fst = expected_keys →
       objKeys (Json.obj (setKey pkvs "vulnerability_id"
           (Json.str (pyStrip (getStr kvs "vulnerability_id"))))) = expected_keys) := by
  have hkeq : objKeys (Json.obj (setKey pkvs "vulnerability_id"
      (Json.str (pyStrip (getStr kvs "vulnerability_id"))))) = pkvs.map Prod.fst := by
    simp only [objKeys]
    exact setKey_keys_of_hasKey pkvs "vulnerability_id" _
      (expected_keys_all_unpack pkvs hkeys).1
  refine ⟨?_, hkeq, fun hp => by rw [hkeq, hp]⟩
  rw [analyze_fresh_success kvs store t pkvs hval hfilter hloads hkeys]

/-- C6 counterexample: the LLM reply carries an extra key "note"; the fresh
analysis succeeds with 200 and the response body has four keys — the extra
reply key is passed through to the caller, so the body does not consist of
exactly the three required keys. -/
theorem C6_counterexample :
    (analyze_vulnerability ⟨Except.ok (Json.obj
        [("vulnerability_id", Json.str "V1"), ("description", Json.str "d"),
         ("code_snippet", Json.str "c"), ("language", Json.str "py")]),
        [], none,
        Except.ok "\x7b\"vulnerability_id\": \"V1\", \"fixed_code\": \"cc\", \"fix_description\": \"dd\", \"note\": \"hi\"\x7d",
        none⟩).fst =
      Except.ok ⟨200, Json.obj [("vulnerability_id", Json.str "V1"),
                                ("fixed_code", Json.str "cc"),
                                ("fix_description", Json.str "dd"),
                                ("note", Json.str "hi")]⟩ ∧
    objKeys (Json.obj [("vulnerability_id", Json.str "V1"),
                       ("fixed_code", Json.str "cc"),
                       ("fix_description", Json.str "dd"),
                       ("note", Json.str "hi")]) =
      ["vulnerability_id", "fixed_code", "fix_description", "note"] ∧
    objKeys (Json.obj [("vulnerability_id", Json.str "V1"),
                       ("fixed_code", Json.str "cc"),
                       ("fix_description", Json.str "dd"),
                       ("note", Json.str "hi")]) ≠ expected_keys :=
  ⟨rfl, rfl, by decide⟩

/-- C6 witness: with a reply holding exactly the three required keys, the 200
body holds exactly those keys. -/
theorem C6_witness :
    (analyze_vulnerability ⟨Except.ok (Json.obj
        [("vulnerability_id", Json.str "V1"), ("description", Json.str "d"),
         ("code_snippet", Json.str "c"), ("language", Json.str "py")]),
        [], none,
        Except.ok "\x7b\"vulnerability_id\": \"V1\", \"fixed_code\": \"cc\", \"fix_description\": \"dd\"\x7d",
        none⟩).fst =
      Except.ok ⟨200, Json.obj [("vulnerability_id", Json.str "V1"),
                                ("fixed_code", Json.str "cc"),
                                ("fix_description", Json.str "dd")]⟩ ∧
    objKeys (Json.obj [("vulnerability_id", Json.str "V1"),
                       ("fixed_code", Json.str "cc"),
                       ("fix_description", Json.str "dd")]) = expected_keys :=
  ⟨(C6_success_body_keys
      [("vulnerability_id", Json.str "V1"), ("description", Json.str "d"),
       ("code_snippet", Json.str "c"), ("language", Json.str "py")]
      [] "\x7b\"vulnerability_id\": \"V1\", \"fixed_code\": \"cc\", \"fix_description\": \"dd\"\x7d"
      [("vulnerability_id", Json.str "V1"), ("fixed_code", Json.str "cc"),
       ("fix_description", Json.str "dd")]
      rfl rfl rfl rfl).1,
   (C6_success_body_keys
      [("vulnerability_id", Json.str "V1"), ("description", Json.str "d"),
       ("code_snippet", Json.str "c"), ("language", Json.str "py")]
      [] "\x7b\"vulnerability_id\": \"V1\", \"fixed_code\": \"cc\", \"fix_description\": \"dd\"\x7d"
      [("vulnerability_id", Json.str "V1"), ("fixed_code", Json.str "cc"),
       ("fix_description", Json.str "dd")]
      rfl rfl rfl rfl).2.2 rfl⟩

/-- C7: a request failing body parsing, or failing input validation, is
answered 400 with an empty effect trace: no store lookup, no LLM call and no
insert happen before the 400 is returned. -/
theorem C7_no_effects_on_client_error (env : Env) :
    (env.body = Except.error () →
       analyze_vulnerability env =
         (Except.ok ⟨400, Json.obj [("error", Json.str "Invalid JSON")]⟩, [])) ∧
    (∀ data e, env.body = Except.ok data → validate_input data = (false, some e) →
       analyze_vulnerability env =
         (Except.ok ⟨400, Json.obj [("error", Json.str e)]⟩, [])) := by
  obtain ⟨body, store, le, llm, ie⟩ := env
  constructor
  · intro h
    subst h
    exact analyze_body_error store le llm ie
  · intro data e h hv
    subst h
    exact analyze_validation_fail data e store le llm ie hv

/-- C7 witness: an unparseable body and a body with a blank required field
both produce a 400 with an empty effect trace. -/
theorem C7_witness :
    analyze_vulnerability ⟨Except.error (), [], none, Except.ok "x", none⟩ =
      (Except.ok ⟨400, Json.obj [("error", Json.str "Invalid JSON")]⟩, []) ∧
    analyze_vulnerability ⟨Except.ok (Json.obj
        [("vulnerability_id", Json.str "  "), ("description", Json.str "d"),
         ("code_snippet", Json.str "c"), ("language", Json.str "py")]),
        [], none, Except.ok "x", none⟩ =
      (Except.ok ⟨400, Json.obj [("error",
          Json.str "Field \x27vulnerability_id\x27 must be a non-empty string")]⟩, []) :=
  ⟨(C7_no_effects_on_client_error ⟨Except.error (), [], none, Except.ok "x", none⟩).1 rfl,
   (C7_no_effects_on_client_error ⟨Except.ok (Json.obj
        [("vulnerability_id", Json.str "  "), ("description", Json.str "d"),
         ("code_snippet", Json.str "c"), ("language", Json.str "py")]),
        [], none, Except.ok "x", none⟩).2
     (Json.obj [("vulnerability_id", Json.str "  "), ("description", Json.str "d"),
                ("code_snippet", Json.str "c"), ("language", Json.str "py")])
     "Field \x27vulnerability_id\x27 must be a non-empty string" rfl rfl⟩

/-- C8: the prompt builder is a pure function of the validated report: it
always returns exactly two messages — a system-role message whose content is
the fixed SYSTEM_PROMPT and a user-role message whose content embeds the JSON
serialization of the report followed by the instruction to return only the
required JSON; being a function of its argument alone, two runs on the same
input are identical. -/
theorem C8_build_messages_pure (input_json : Json) :
    build_messages input_json =
      [⟨"system", SYSTEM_PROMPT⟩,
       ⟨"user", "Here is the vulnerability JSON:\n" ++ json_dumps input_json ++
                "\nReturn only the required JSON."⟩] ∧
    (build_messages input_json).length = 2 :=
  ⟨rfl, rfl⟩

/-- C9: for every valid request, the id queried in the store lookup, the id in
any persisted record, and the vulnerability_id of a 200 response body are all
the caller-supplied vulnerability_id stripped of surrounding whitespace, while
the persisted description, code_snippet and language are exactly the supplied
values, untrimmed. -/
theorem C9_stripped_id_verbatim_fields (env : Env) (kvs : List (String × Json))
    (id : String)
    (hbody : env.body = Except.ok (Json.obj kvs))
    (hval : validate_input (Json.obj kvs) = (true, none))
    (hid : lookupKV kvs "vulnerability_id" = some (Json.str id)) :
    (∃ tr, (analyze_vulnerability env).snd = Effect.dbLookup (pyStrip id) :: tr) ∧
    (∀ rec, Effect.dbInsert rec ∈ (analyze_vulnerability env).snd →
        lookupKV rec "vulnerability_id" = some (Json.str (pyStrip id)) ∧
        lookupKV rec "description" = lookupKV kvs "description" ∧
        lookupKV rec "code_snippet" = lookupKV kvs "code_snippet" ∧
        lookupKV rec "language" = lookupKV kvs "language") ∧
    (∀ resp, (analyze_vulnerability env).fst = Except.ok resp → resp.status = 200 →
        jsonField resp.body "vulnerability_id" = some (Json.str (pyStrip id))) := by
  have hfacts := analyze_valid_run_facts env kvs hbody hval
  rw [getStr_eq kvs "vulnerability_id" id hid] at hfacts
  obtain ⟨h1, h2, h3, h4⟩ := hfacts
  refine ⟨h1, ?_, h4⟩
  intro rec hmem
  obtain ⟨pkvs, hkeys, rfl⟩ := h3 rec hmem
  have hfields := (validate_obj_true_iff kvs).mp (by rw [hval])
  obtain ⟨sd, hsd, -⟩ := hfields "description" (by simp [REQUIRED_KEYS])
  obtain ⟨sc, hsc, -⟩ := hfields "code_snippet" (by simp [REQUIRED_KEYS])
  obtain ⟨sl, hsl, -⟩ := hfields "language" (by simp [REQUIRED_KEYS])
  refine ⟨rfl, ?_, ?_, ?_⟩
  · show some (getJ kvs "description") = lookupKV kvs "description"
    rw [hsd]
    simp [getJ, hsd]
  · show some (getJ kvs "code_snippet") = lookupKV kvs "code_snippet"
    rw [hsc]
    simp [getJ, hsc]
  · show some (getJ kvs "language") = lookupKV kvs "language"
    rw [hsl]
    simp [getJ, hsl]

/-- C9 witness: a concrete valid request with caller id " V1 " (surrounding
whitespace) queries the store under the stripped id "V1". -/
theorem C9_witness :
    ∃ tr, (analyze_vulnerability ⟨Except.ok (Json.obj
        [("vulnerability_id", Json.str " V1 "),
         ("description", Json.str " spaced description "),
         ("code_snippet", Json.str "q"),
         ("language", Json.str "python")]), [], none,
        Except.ok "\x7b\"vulnerability_id\": \"V1\", \"fixed_code\": \"qq\", \"fix_description\": \"fix\"\x7d",
        none⟩).snd = Effect.dbLookup (pyStrip " V1 ") :: tr :=
  (C9_stripped_id_verbatim_fields
    ⟨Except.ok (Json.obj
        [("vulnerability_id", Json.str " V1 "),
         ("description", Json.str " spaced description "),
         ("code_snippet", Json.str "q"),
         ("language", Json.str "python")]), [], none,
        Except.ok "\x7b\"vulnerability_id\": \"V1\", \"fixed_code\": \"qq\", \"fix_description\": \"fix\"\x7d",
        none⟩
    [("vulnerability_id", Json.str " V1 "),
     ("description", Json.str " spaced description "),
     ("code_snippet", Json.str "q"),
     ("language", Json.str "python")]
    " V1 " rfl rfl rfl).1

/-- C10: a body holding the four required fields as non-blank strings passes
validation whatever extra keys it carries; the user-role prompt message
serializes the whole mapping — extra keys included — verbatim; and any
persisted record has exactly the six columns vulnerability_id, description,
code_snippet, language, fix_description, fixed_code, never the extras. -/
theorem C10_extra_keys_flow (kvs : List (String × Json))
    (hfields : ∀ k ∈ REQUIRED_KEYS, ∃ s, lookupKV kvs k = some (Json.str s) ∧ pyStrip s ≠ "") :
    validate_input (Json.obj kvs) = (true, none) ∧
    json_dumps (Json.obj kvs) = "\x7b" ++ dumpMembers kvs ++ "\x7d" ∧
    (∀ env msgs, env.body = Except.ok (Json.obj kvs) →
        Effect.llmCall msgs ∈ (analyze_vulnerability env).snd →
        msgs = [⟨"system", SYSTEM_PROMPT⟩,
                ⟨"user", "Here is the vulnerability JSON:\n" ++ json_dumps (Json.obj kvs) ++
                         "\nReturn only the required JSON."⟩]) ∧
    (∀ env rec, env.body = Except.ok (Json.obj kvs) →
        Effect.dbInsert rec ∈ (analyze_vulnerability env).snd →
        rec.map Prod.fst = ["vulnerability_id", "description", "code_snippet",
                            "language", "fix_description", "fixed_code"]) := by
  have hval : validate_input (Json.obj kvs) = (true, none) :=
    validate_input_true_none _ ((validate_obj_true_iff kvs).mpr hfields)
  refine ⟨hval, by simp [json_dumps], ?_, ?_⟩
  · intro env msgs hbody hmem
    rw [(analyze_valid_run_facts env kvs hbody hval).2.1 msgs hmem]
    rfl
  · intro env rec hbody hmem
    obtain ⟨pkvs, -, rfl⟩ := (analyze_valid_run_facts env kvs hbody hval).2.2.1 rec hmem
    rfl

/-- C10 witness: a body with an extra key "note" passes validation, the extra
key is serialized into the user prompt, and the persisted record of the run
has exactly the six columns. -/
theorem C10_witness :
    validate_input (Json.obj
      [("vulnerability_id", Json.str "V1"), ("description", Json.str "d"),
       ("code_snippet", Json.str "c"), ("language", Json.str "py"),
       ("note", Json.str "extra")]) = (true, none) ∧
    json_dumps (Json.obj
      [("vulnerability_id", Json.str "V1"), ("description", Json.str "d"),
       ("code_snippet", Json.str "c"), ("language", Json.str "py"),
       ("note", Json.str "extra")]) =
      "\x7b" ++ dumpMembers
        [("vulnerability_id", Json.str "V1"), ("description", Json.str "d"),
         ("code_snippet", Json.str "c"), ("language", Json.str "py"),
         ("note", Json.str "extra")] ++ "\x7d" :=
  ⟨(C10_extra_keys_flow
      [("vulnerability_id", Json.str "V1"), ("description", Json.str "d"),
       ("code_snippet", Json.str "c"), ("language", Json.str "py"),
       ("note", Json.str "extra")]
      (by
        intro k hk
        fin_cases hk
        · exact ⟨"V1", rfl, by decide⟩
        · exact ⟨"d", rfl, by decide⟩
        · exact ⟨"c", rfl, by decide⟩
        · exact ⟨"py", rfl, by decide⟩)).1,
   (C10_extra_keys_flow
      [("vulnerability_id", Json.str "V1"), ("description", Json.str "d"),
       ("code_snippet", Json.str "c"), ("language", Json.str "py"),
       ("note", Json.str "extra")]
      (by
        intro k hk
        fin_cases hk
        · exact ⟨"V1", rfl, by decide⟩
        · exact ⟨"d", rfl, by decide⟩
        · exact ⟨"c", rfl, by decide⟩
        · exact ⟨"py", rfl, by decide⟩)).2.1⟩

end Aegis
